import Mathlib

/-!
Verification of the resource-management utilities of SFBAudioUtilities:
the Core Foundation handle wrapper `SFB::CFWrapper` (SFBCFWrapper.hpp) and
the deferred cleanup closure `SFBDeferredClosure` (SFBDeferredClosure.hpp).

The wrapper is embedded shallowly: a handle is an `Option Nat` (`none` is
`nullptr`), a wrapper instance is its two fields `mObject`/`mRelease`, and
every operation returns the resulting state(s) together with the list of
host-system calls (`CFRetain`/`CFRelease` events) it issues, in emission
order.  Reference-count effects on a concrete object are read off that
event list.
-/

namespace SFB

/-- A call into the host object system's reference-count primitives:
`CFRetain h` or `CFRelease h` on the non-null object `h`. -/
inductive HostCall where
  | retain (h : Nat)
  | release (h : Nat)
deriving DecidableEq, Repr

/-- The state of a `CFWrapper<T>` instance: the wrapped Core Foundation
object `mObject` (`none` models `nullptr`) and the flag `mRelease`
recording whether `CFRelease` should be called on destruction or
reassignment. -/
structure CFWrapper where
  mObject : Option Nat
  mRelease : Bool
deriving DecidableEq, Repr

namespace CFWrapper

/-- `CFWrapper(T object, bool release) : mObject(object), mRelease(release) {}`
(SFBCFWrapper.hpp lines 102-104).  Stores both fields, issues no host calls. -/
def constructRaw (object : Option Nat) (release : Bool) :
    CFWrapper × List HostCall :=
  (⟨object, release⟩, [])

/-- `CFWrapper() : CFWrapper(nullptr) {}` which delegates to
`CFWrapper(object, true)` (lines 31-33 and 95-97). -/
def constructDefault : CFWrapper × List HostCall :=
  constructRaw none true

/-- Copy constructor (lines 36-41): copies both fields, then
`if(mObject && mRelease) CFRetain(mObject)`. -/
def copyConstruct (rhs : CFWrapper) : CFWrapper × List HostCall :=
  (⟨rhs.mObject, rhs.mRelease⟩,
    match rhs.mObject, rhs.mRelease with
    | some h, true => [HostCall.retain h]
    | _, _ => [])

/-- Destructor (lines 61-66): `if(mObject && mRelease) CFRelease(mObject);
mObject = nullptr;`.  Returns the final state and the calls issued. -/
def destruct (w : CFWrapper) : CFWrapper × List HostCall :=
  (⟨none, w.mRelease⟩,
    match w.mObject, w.mRelease with
    | some h, true => [HostCall.release h]
    | _, _ => [])

/-- Move constructor (lines 69-73): copies both fields into the new
wrapper, then `rhs.mObject = nullptr`.  Result is
(destination, source after the move, host calls). -/
def moveConstruct (rhs : CFWrapper) :
    CFWrapper × CFWrapper × List HostCall :=
  (⟨rhs.mObject, rhs.mRelease⟩, ⟨none, rhs.mRelease⟩, [])

/-- Copy assignment (lines 44-58): guarded by `mObject != rhs.mObject`;
releases the current object when owned, copies both fields, then retains
the new object when owned.  Result is (new target state, host calls). -/
def copyAssign (w rhs : CFWrapper) : CFWrapper × List HostCall :=
  if w.mObject = rhs.mObject then (w, [])
  else
    (⟨rhs.mObject, rhs.mRelease⟩,
      (match w.mObject, w.mRelease with
       | some h, true => [HostCall.release h]
       | _, _ => []) ++
      (match rhs.mObject, rhs.mRelease with
       | some h, true => [HostCall.retain h]
       | _, _ => []))

/-- Move assignment (lines 76-89): guarded by `mObject != rhs.mObject`;
releases the current object when owned, copies both fields, then
`rhs.mObject = nullptr`.  When the guard fails nothing happens to either
wrapper.  Result is (new target state, source after the move, host calls). -/
def moveAssign (w rhs : CFWrapper) :
    CFWrapper × CFWrapper × List HostCall :=
  if w.mObject = rhs.mObject then (w, rhs, [])
  else
    (⟨rhs.mObject, rhs.mRelease⟩, ⟨none, rhs.mRelease⟩,
      match w.mObject, w.mRelease with
      | some h, true => [HostCall.release h]
      | _, _ => [])

/-- Assignment from a raw handle, `operator=(const T& rhs)`
(lines 111-122): guarded by `mObject != rhs`; releases the current object
when owned, then `mObject = rhs; mRelease = true;`.  No retain is issued. -/
def assignRaw (w : CFWrapper) (rhs : Option Nat) :
    CFWrapper × List HostCall :=
  if w.mObject = rhs then (w, [])
  else
    (⟨rhs, true⟩,
      match w.mObject, w.mRelease with
      | some h, true => [HostCall.release h]
      | _, _ => [])

/-- `Relinquish()` (lines 127-133): returns `mObject`, sets
`mObject = nullptr`, leaves `mRelease` untouched, issues no host calls.
Result is (returned handle, new state, host calls). -/
def Relinquish (w : CFWrapper) :
    Option Nat × CFWrapper × List HostCall :=
  (w.mObject, ⟨none, w.mRelease⟩, [])

/-- `operator==` (lines 138-148): `true` when the handles are identical,
`false` when they differ and either is `nullptr`, otherwise the result of
`CFEqual`.  The host predicate `CFEqual` is an opaque parameter. -/
def operatorEq (cfEqual : Nat → Nat → Bool) (w rhs : CFWrapper) : Bool :=
  if w.mObject = rhs.mObject then true
  else
    match w.mObject, rhs.mObject with
    | some a, some b => cfEqual a b
    | _, _ => false

/-- `operator!=` (lines 151-154): the negation of `operator==`. -/
def operatorNe (cfEqual : Nat → Nat → Bool) (w rhs : CFWrapper) : Bool :=
  !(operatorEq cfEqual w rhs)

end CFWrapper

/-- Number of `CFRelease` calls, to any object, in a host-call list. -/
def releaseCount (calls : List HostCall) : Nat :=
  (calls.filter fun c => match c with
    | HostCall.release _ => true
    | _ => false).length

/-- Number of `CFRetain` calls, to any object, in a host-call list. -/
def retainCount (calls : List HostCall) : Nat :=
  (calls.filter fun c => match c with
    | HostCall.retain _ => true
    | _ => false).length

/-- Number of `CFRelease h` calls to the specific object `h`. -/
def releaseCountH (h : Nat) (calls : List HostCall) : Nat :=
  (calls.filter fun c => c = HostCall.release h).length

/-- Number of `CFRetain h` calls to the specific object `h`. -/
def retainCountH (h : Nat) (calls : List HostCall) : Nat :=
  (calls.filter fun c => c = HostCall.retain h).length

/-- An operation a client can perform on a single wrapper instance after
its construction: the two wrapper assignments, assignment from a raw
handle, `Relinquish`, and destruction. -/
inductive Op where
  | copyAssignOp (rhs : CFWrapper)
  | moveAssignOp (rhs : CFWrapper)
  | assignRawOp (rhs : Option Nat)
  | relinquishOp
  | destructOp

/-- Effect of one operation on the instance: the resulting state and the
host calls issued, read off the corresponding member function. -/
def stepOp (w : CFWrapper) (op : Op) : CFWrapper × List HostCall :=
  match op with
  | Op.copyAssignOp rhs => CFWrapper.copyAssign w rhs
  | Op.moveAssignOp rhs =>
      ((CFWrapper.moveAssign w rhs).1, (CFWrapper.moveAssign w rhs).2.2)
  | Op.assignRawOp rhs => CFWrapper.assignRaw w rhs
  | Op.relinquishOp => ((w.Relinquish).2.1, (w.Relinquish).2.2)
  | Op.destructOp => w.destruct

/-- All host calls issued when the instance, starting in state `w`,
performs the operations `ops` in order. -/
def traceCalls (w : CFWrapper) (ops : List Op) : List HostCall :=
  match ops with
  | [] => []
  | op :: rest => (stepOp w op).2 ++ traceCalls (stepOp w op).1 rest

/-- Ghost ownership token: 1 when the instance currently owns a reference
to the object `h` (its handle is `h` and owns is set), else 0. -/
def ownTok (h : Nat) (w : CFWrapper) : Nat :=
  if w.mObject = some h ∧ w.mRelease = true then 1 else 0

/-- Number of logical ownerships of `h` the operation hands to the
instance: a copy- or move-assignment installing an owned `h` (retained,
respectively transferred), or a raw-handle assignment adopting `h`. -/
def installTok (h : Nat) (w : CFWrapper) (op : Op) : Nat :=
  match op with
  | Op.copyAssignOp rhs =>
      if w.mObject ≠ rhs.mObject ∧ rhs.mObject = some h ∧ rhs.mRelease = true
      then 1 else 0
  | Op.moveAssignOp rhs =>
      if w.mObject ≠ rhs.mObject ∧ rhs.mObject = some h ∧ rhs.mRelease = true
      then 1 else 0
  | Op.assignRawOp rhs => if w.mObject ≠ rhs ∧ rhs = some h then 1 else 0
  | Op.relinquishOp => 0
  | Op.destructOp => 0

/-- Total number of logical ownerships of `h` installed along a trace. -/
def installCount (h : Nat) (w : CFWrapper) (ops : List Op) : Nat :=
  match ops with
  | [] => 0
  | op :: rest => installTok h w op + installCount h (stepOp w op).1 rest

end SFB

/-- The state of an `SFBDeferredClosure<F>` instance: the stored closure
`mClosure` (SFBDeferredClosure.hpp line 56). -/
structure SFBDeferredClosure (F : Type) where
  mClosure : F

/-- Constructor (SFBDeferredClosure.hpp lines 31-33): binds `mClosure` to
the given closure and invokes nothing.  Result is (instance, list of
closure invocations performed, each entry the callable invoked). -/
def SFBDeferredClosure.construct {F : Type} (closure : F) :
    SFBDeferredClosure F × List F :=
  (⟨closure⟩, [])

/-- Destructor (SFBDeferredClosure.hpp lines 42-45): `mClosure();`.
Returns the list of closure invocations performed. -/
def SFBDeferredClosure.destruct {F : Type} (c : SFBDeferredClosure F) :
    List F :=
  [c.mClosure]

namespace SFB

/-- The destructor issues one `CFRelease` exactly when the handle is
non-null and `mRelease` is set. -/
theorem destruct_releaseCount (w : CFWrapper) :
    releaseCount (w.destruct).2 =
      (if w.mObject ≠ none ∧ w.mRelease = true then 1 else 0) := by
  obtain ⟨o, r⟩ := w
  cases o <;> cases r <;> simp [CFWrapper.destruct, releaseCount]

/-- Claim C1: constructing a wrapper that adopts a non-empty handle
(`adopt = true`) stores the handle with owns set and issues no host calls
(in particular no `CFRetain`); destroying any wrapper issues exactly one
`CFRelease` iff its handle is non-empty and owns is set, so destroying an
Empty or Borrowing wrapper issues no release. -/
theorem claim_C1 (h : Nat) (w : CFWrapper) :
    (CFWrapper.constructRaw (some h) true).1.mObject = some h
    ∧ (CFWrapper.constructRaw (some h) true).1.mRelease = true
    ∧ (CFWrapper.constructRaw (some h) true).2 = []
    ∧ releaseCount (w.destruct).2 =
        (if w.mObject ≠ none ∧ w.mRelease = true then 1 else 0) :=
  ⟨rfl, rfl, rfl, destruct_releaseCount w⟩

/-- Claim C3: move construction from a wrapper owning a non-empty handle
transfers the handle and the owns flag to the destination, issues no host
calls, and leaves the source with an empty handle, so destroying the
source afterwards issues no release. -/
theorem claim_C3 (h : Nat) (rhs : CFWrapper)
    (hobj : rhs.mObject = some h) (hown : rhs.mRelease = true) :
    (CFWrapper.moveConstruct rhs).1 = ⟨some h, true⟩
    ∧ (CFWrapper.moveConstruct rhs).2.2 = []
    ∧ (CFWrapper.moveConstruct rhs).2.1.mObject = none
    ∧ releaseCount ((CFWrapper.moveConstruct rhs).2.1.destruct).2 = 0 := by
  refine ⟨?_, rfl, rfl, ?_⟩
  · simp [CFWrapper.moveConstruct, hobj, hown]
  · simp [CFWrapper.moveConstruct, CFWrapper.destruct, releaseCount]

/-- Witness for C3 at the concrete owning wrapper holding handle 7. -/
theorem claim_C3_witness :
    (CFWrapper.moveConstruct ⟨some 7, true⟩).1 = ⟨some 7, true⟩
    ∧ (CFWrapper.moveConstruct ⟨some 7, true⟩).2.2 = []
    ∧ (CFWrapper.moveConstruct ⟨some 7, true⟩).2.1.mObject = none
    ∧ releaseCount ((CFWrapper.moveConstruct ⟨some 7, true⟩).2.1.destruct).2 = 0 :=
  claim_C3 7 ⟨some 7, true⟩ rfl rfl

/-- Claim C6: `Relinquish` returns the current handle, empties the
wrapper's handle, leaves the owns flag unchanged, issues no host calls,
and the subsequent destruction of the wrapper issues no calls at all. -/
theorem claim_C6 (w : CFWrapper) :
    (w.Relinquish).1 = w.mObject
    ∧ (w.Relinquish).2.2 = []
    ∧ (w.Relinquish).2.1.mObject = none
    ∧ (w.Relinquish).2.1.mRelease = w.mRelease
    ∧ ((w.Relinquish).2.1.destruct).2 = [] := by
  obtain ⟨o, r⟩ := w
  refine ⟨rfl, rfl, rfl, rfl, ?_⟩
  cases r <;> rfl

/-- Claim C9: the deferred closure performs zero invocations of its action
at construction and exactly one invocation, of the stored action, at
destruction. -/
theorem claim_C9 (F : Type) (f : F) :
    (SFBDeferredClosure.construct f).2 = []
    ∧ SFBDeferredClosure.destruct (SFBDeferredClosure.construct f).1 = [f] :=
  ⟨rfl, rfl⟩

/-- Claim C10: assigning a raw handle equal to the current handle leaves
the wrapper entirely unchanged — same fields, owns flag included, and no
host calls — so a Borrowing wrapper stays non-owning and its destruction
still releases nothing. -/
theorem claim_C10 (w : CFWrapper) (r : Option Nat) (heq : w.mObject = r) :
    CFWrapper.assignRaw w r = (w, [])
    ∧ (CFWrapper.assignRaw w r).1.mRelease = w.mRelease
    ∧ releaseCount (((CFWrapper.assignRaw w r).1).destruct).2 =
        (if w.mObject ≠ none ∧ w.mRelease = true then 1 else 0) := by
  have hassign : CFWrapper.assignRaw w r = (w, []) := by
    simp [CFWrapper.assignRaw, heq]
  refine ⟨hassign, ?_, ?_⟩
  · rw [hassign]
  · rw [hassign]
    exact destruct_releaseCount w

/-- Claim C4: copy- and move-assignment whose incoming handle equals the
current handle leave both wrappers unchanged and issue no host calls;
when the handles differ the current object is released iff it was owned
and non-empty, the new handle and flag are installed, copy-assignment
additionally retains the new object iff it is non-empty and owned, and
move-assignment empties the source and never retains. -/
theorem claim_C4 (w rhs : CFWrapper) :
    (CFWrapper.copyAssign w rhs).1 =
      (if w.mObject = rhs.mObject then w else ⟨rhs.mObject, rhs.mRelease⟩)
    ∧ releaseCount (CFWrapper.copyAssign w rhs).2 =
        (if w.mObject ≠ rhs.mObject ∧ w.mObject ≠ none ∧ w.mRelease = true
         then 1 else 0)
    ∧ retainCount (CFWrapper.copyAssign w rhs).2 =
        (if w.mObject ≠ rhs.mObject ∧ rhs.mObject ≠ none ∧ rhs.mRelease = true
         then 1 else 0)
    ∧ (CFWrapper.moveAssign w rhs).1 =
        (if w.mObject = rhs.mObject then w else ⟨rhs.mObject, rhs.mRelease⟩)
    ∧ (CFWrapper.moveAssign w rhs).2.1 =
        (if w.mObject = rhs.mObject then rhs else ⟨none, rhs.mRelease⟩)
    ∧ releaseCount (CFWrapper.moveAssign w rhs).2.2 =
        (if w.mObject ≠ rhs.mObject ∧ w.mObject ≠ none ∧ w.mRelease = true
         then 1 else 0)
    ∧ retainCount (CFWrapper.moveAssign w rhs).2.2 = 0 := by
  obtain ⟨o, r⟩ := w
  obtain ⟨o2, r2⟩ := rhs
  by_cases hoo : o = o2
  · subst hoo
    simp [CFWrapper.copyAssign, CFWrapper.moveAssign, releaseCount, retainCount]
  · cases o <;> cases o2 <;> cases r <;> cases r2 <;>
      simp_all [CFWrapper.copyAssign, CFWrapper.moveAssign,
        releaseCount, retainCount]

/-- Claim C5: assigning a raw handle distinct from the current handle
releases the current object iff it was owned and non-empty, installs the
raw handle with owns set, and issues no `CFRetain` (the handle's
outstanding reference is adopted, not duplicated). -/
theorem claim_C5 (w : CFWrapper) (h : Nat) (hne : w.mObject ≠ some h) :
    (CFWrapper.assignRaw w (some h)).1 = ⟨some h, true⟩
    ∧ retainCount (CFWrapper.assignRaw w (some h)).2 = 0
    ∧ releaseCount (CFWrapper.assignRaw w (some h)).2 =
        (if w.mObject ≠ none ∧ w.mRelease = true then 1 else 0) := by
  obtain ⟨o, r⟩ := w
  cases o <;> cases r <;>
    simp_all [CFWrapper.assignRaw, retainCount, releaseCount]

/-- Witness for C5 at the concrete owning wrapper of handle 1,
assigned the distinct raw handle 2. -/
theorem claim_C5_witness :
    (CFWrapper.assignRaw ⟨some 1, true⟩ (some 2)).1 = ⟨some 2, true⟩
    ∧ retainCount (CFWrapper.assignRaw ⟨some 1, true⟩ (some 2)).2 = 0
    ∧ releaseCount (CFWrapper.assignRaw ⟨some 1, true⟩ (some 2)).2 =
        (if (⟨some 1, true⟩ : CFWrapper).mObject ≠ none
            ∧ (⟨some 1, true⟩ : CFWrapper).mRelease = true then 1 else 0) :=
  claim_C5 ⟨some 1, true⟩ 2 (by decide)

/-- Claim C8: `operator==` returns true when the handles are identical
(including both null); when the handles differ and either is null it
returns false; when the handles differ and both are non-null it returns
exactly the host predicate `CFEqual` applied to them. -/
theorem claim_C8 (cfEqual : Nat → Nat → Bool) (w rhs : CFWrapper) :
    (w.mObject = rhs.mObject → CFWrapper.operatorEq cfEqual w rhs = true)
    ∧ (w.mObject ≠ rhs.mObject → (w.mObject = none ∨ rhs.mObject = none) →
        CFWrapper.operatorEq cfEqual w rhs = false)
    ∧ (∀ a b, w.mObject = some a → rhs.mObject = some b →
        w.mObject ≠ rhs.mObject →
        CFWrapper.operatorEq cfEqual w rhs = cfEqual a b) := by
  obtain ⟨o, r⟩ := w
  obtain ⟨o2, r2⟩ := rhs
  refine ⟨?_, ?_, ?_⟩
  · intro hoo
    simp_all [CFWrapper.operatorEq]
  · intro hoo hnull
    cases o <;> cases o2 <;> simp_all [CFWrapper.operatorEq]
  · intro a b ha hb hoo
    cases o <;> cases o2 <;> simp_all [CFWrapper.operatorEq]

/-- Witness for C8: the three cases at concrete wrappers, with the host
predicate fixed to the constantly-false function. -/
theorem claim_C8_witness :
    CFWrapper.operatorEq (fun _ _ => false) ⟨some 1, true⟩ ⟨some 1, false⟩ = true
    ∧ CFWrapper.operatorEq (fun _ _ => false) ⟨none, true⟩ ⟨some 2, true⟩ = false
    ∧ CFWrapper.operatorEq (fun _ _ => false) ⟨some 1, true⟩ ⟨some 2, true⟩
        = (fun _ _ => false) 1 2 :=
  ⟨(claim_C8 (fun _ _ => false) ⟨some 1, true⟩ ⟨some 1, false⟩).1 rfl,
   (claim_C8 (fun _ _ => false) ⟨none, true⟩ ⟨some 2, true⟩).2.1
     (by decide) (Or.inl rfl),
   (claim_C8 (fun _ _ => false) ⟨some 1, true⟩ ⟨some 2, true⟩).2.2
     1 2 rfl rfl (by decide)⟩

/-- Counterexample to C2 as stated: copy assignment from the Owning
wrapper of handle 0 onto a target already holding handle 0 (here a
Borrowing wrapper) is a no-op: zero `CFRetain` calls are issued, and
destroying the target wrapper afterwards issues zero `CFRelease` calls,
against the claimed exactly-one for each. -/
theorem claim_C2_counterexample :
    ((⟨some 0, true⟩ : CFWrapper).mRelease = true
      ∧ (⟨some 0, true⟩ : CFWrapper).mObject ≠ none)
    ∧ retainCount (CFWrapper.copyAssign ⟨some 0, false⟩ ⟨some 0, true⟩).2 = 0
    ∧ releaseCount
        (((CFWrapper.copyAssign ⟨some 0, false⟩ ⟨some 0, true⟩).1).destruct).2
        = 0 := by
  decide

/-- Claim C2 (amended): for copy construction from a wrapper owning a
non-empty handle, and for copy assignment from such a wrapper whose
handle differs from the target's current handle, exactly one `CFRetain`
of that handle is issued, and destroying either resulting wrapper issues
exactly one `CFRelease` of it. -/
theorem claim_C2 (h : Nat) (rhs w : CFWrapper)
    (hobj : rhs.mObject = some h) (hown : rhs.mRelease = true)
    (hne : w.mObject ≠ rhs.mObject) :
    retainCountH h (CFWrapper.copyConstruct rhs).2 = 1
    ∧ releaseCountH h (((CFWrapper.copyConstruct rhs).1).destruct).2 = 1
    ∧ releaseCountH h (rhs.destruct).2 = 1
    ∧ retainCountH h (CFWrapper.copyAssign w rhs).2 = 1
    ∧ releaseCountH h (((CFWrapper.copyAssign w rhs).1).destruct).2 = 1 := by
  obtain ⟨o, r⟩ := w
  refine ⟨?_, ?_, ?_, ?_, ?_⟩ <;>
    cases o <;> cases r <;>
      simp_all [CFWrapper.copyConstruct, CFWrapper.copyAssign,
        CFWrapper.destruct, retainCountH, releaseCountH]

/-- Witness for C2 at concrete wrappers: source owning handle 4, target
owning the distinct handle 9. -/
theorem claim_C2_witness :
    retainCountH 4 (CFWrapper.copyConstruct ⟨some 4, true⟩).2 = 1
    ∧ releaseCountH 4
        (((CFWrapper.copyConstruct ⟨some 4, true⟩).1).destruct).2 = 1
    ∧ releaseCountH 4 ((⟨some 4, true⟩ : CFWrapper).destruct).2 = 1
    ∧ retainCountH 4
        (CFWrapper.copyAssign ⟨some 9, true⟩ ⟨some 4, true⟩).2 = 1
    ∧ releaseCountH 4
        (((CFWrapper.copyAssign ⟨some 9, true⟩ ⟨some 4, true⟩).1).destruct).2
        = 1 :=
  claim_C2 4 ⟨some 4, true⟩ ⟨some 9, true⟩ rfl rfl (by decide)

/-- Counting releases of `h` distributes over concatenated call lists. -/
theorem releaseCountH_append (h : Nat) (a b : List HostCall) :
    releaseCountH h (a ++ b) = releaseCountH h a + releaseCountH h b := by
  simp [releaseCountH, List.filter_append]

/-- One step preserves the ownership-token budget for `h`: the releases
of `h` it issues, plus the token still held afterwards, never exceed the
ownerships installed by the step plus the token held before it. -/
theorem stepOp_token_bound (h : Nat) (w : CFWrapper) (op : Op) :
    releaseCountH h (stepOp w op).2 + ownTok h (stepOp w op).1
      ≤ installTok h w op + ownTok h w := by
  obtain ⟨o, r⟩ := w
  cases op with
  | copyAssignOp rhs =>
    obtain ⟨o2, r2⟩ := rhs
    by_cases hoo : o = o2
    · simp [stepOp, CFWrapper.copyAssign, installTok, ownTok, releaseCountH, hoo]
    · cases o <;> cases r <;> cases o2 <;> cases r2 <;>
        simp_all [stepOp, CFWrapper.copyAssign, installTok, ownTok,
          releaseCountH, List.filter_append] <;>
        split_ifs <;> simp_all
  | moveAssignOp rhs =>
    obtain ⟨o2, r2⟩ := rhs
    by_cases hoo : o = o2
    · simp [stepOp, CFWrapper.moveAssign, installTok, ownTok, releaseCountH, hoo]
    · cases o <;> cases r <;> cases o2 <;> cases r2 <;>
        simp_all [stepOp, CFWrapper.moveAssign, installTok, ownTok,
          releaseCountH] <;>
        split_ifs <;> simp_all
  | assignRawOp rhs =>
    by_cases hoo : o = rhs
    · simp [stepOp, CFWrapper.assignRaw, installTok, ownTok, releaseCountH, hoo]
    · cases o <;> cases r <;>
        simp_all [stepOp, CFWrapper.assignRaw, installTok, ownTok,
          releaseCountH]
      all_goals split_ifs <;> simp_all
  | relinquishOp =>
    cases o <;> cases r <;>
      simp [stepOp, CFWrapper.Relinquish, installTok, ownTok, releaseCountH]
  | destructOp =>
    cases o <;> cases r <;>
      simp_all [stepOp, CFWrapper.destruct, installTok, ownTok,
        releaseCountH]
    all_goals split_ifs <;> simp_all

/-- Claim C7: along every sequence of operations on a single wrapper
instance, the `CFRelease` calls issued for an object `h` never exceed the
logical ownerships of `h` the instance acquired: those installed by the
operations plus the one it may hold initially.  In particular no sequence
releases the same owned reference twice. -/
theorem claim_C7 (h : Nat) (w : CFWrapper) (ops : List Op) :
    releaseCountH h (traceCalls w ops) ≤ installCount h w ops + ownTok h w := by
  induction ops generalizing w with
  | nil => simp [traceCalls, installCount, releaseCountH]
  | cons op rest ih =>
    rw [traceCalls, releaseCountH_append, installCount]
    have h1 := stepOp_token_bound h w op
    have h2 := ih (stepOp w op).1
    omega

/-- Witness for C10 at the concrete Borrowing wrapper of handle 3,
reassigned the same raw handle 3. -/
theorem claim_C10_witness :
    CFWrapper.assignRaw ⟨some 3, false⟩ (some 3) = (⟨some 3, false⟩, [])
    ∧ (CFWrapper.assignRaw ⟨some 3, false⟩ (some 3)).1.mRelease
        = (⟨some 3, false⟩ : CFWrapper).mRelease
    ∧ releaseCount (((CFWrapper.assignRaw ⟨some 3, false⟩ (some 3)).1).destruct).2 =
        (if (⟨some 3, false⟩ : CFWrapper).mObject ≠ none
            ∧ (⟨some 3, false⟩ : CFWrapper).mRelease = true then 1 else 0) :=
  claim_C10 ⟨some 3, false⟩ (some 3) rfl

end SFB
